import Mathlib

/-!
# Verification of the Rainbird irrigation controller (device state logic)

Shallow embedding of `src/drivers/rainbird/device.ts` from the Homey app
`com.sortedbits.rainbird`: the zone session controller (`getCurrentStatus`),
the countdown timer (`updateTime`), the time formatter (`formatTime`), the
flow-card run listeners (start/stop zones), and the settings-driven
re-instantiation path (`onSettings` + `instantiateController`).

Conventions of the embedding:
* JavaScript numbers that the device code only ever uses as non-negative
  integers (zone indices, millisecond timestamps, second durations) become
  `Nat`.
* `undefined` / `null` become `none` of an `Option`.
* JavaScript truthiness tests on numbers (`if (currentZoneId)`,
  `if (duration)`) are embedded as `≠ 0` on the `getD 0` of the option,
  which matches exactly: `undefined` and `0` are falsy, every other
  `Nat` is truthy.
* the external `RainBirdService` is modelled by a record of the read results
  the device code consumes from it; an absent service (`this.rainbirdService`
  being `undefined` together with optional chaining `?.`) is `none`.
* side effects (trigger cards, capability writes, timer scheduling, protocol
  calls) are reified as an ordered list of `Effect` / `SvcCall` values in the
  order the statements execute in the source.
-/

namespace Rainbird

/-- A configured irrigation zone (`src/drivers/rainbird/models/zone`):
identity is `index`, display text is `name`. -/
structure Zone where
  index : Nat
  name : String
deriving DecidableEq, Repr

/-! ## Time formatter (device.ts lines 325-331) -/

/-- Two-digit zero-padded decimal field, as used inside the `HH:MM:SS`
portion of `Date.prototype.toISOString`. -/
def pad2 (n : Nat) : String :=
  if n < 10 then "0" ++ toString n else toString n

/-- The `HH:MM:SS` part of `new Date(ms).toISOString()`, i.e. the result of
`toISOString().substring(11, 19)`.  The ISO string is always
`YYYY-MM-DDTHH:MM:SS.mmmZ`, so characters 11..18 are the time of day, which
depends only on `ms` modulo one day (86 400 000 ms); the calendar date part
that `substring` discards is not modelled. -/
def isoTimeOfDay (ms : Nat) : String :=
  pad2 (ms / 3600000 % 24) ++ ":" ++ pad2 (ms / 60000 % 60) ++ ":" ++ pad2 (ms / 1000 % 60)

/-- `formatTime` (device.ts 325-331): `undefined ↦ "-"`, otherwise
`new Date(seconds * 1000).toISOString().substring(11, 19)`. -/
def formatTime (seconds : Option Nat) : String :=
  match seconds with
  | none => "-"
  | some s => isoTimeOfDay (s * 1000)

/-! ## The protocol-client (RainBirdService) read model

`getCurrentStatus` only ever *reads* from `this.rainbirdService`:
`isInUse()`, `.zones`, `isActive(zone)`, `remainingDuration(zoneId)`.
We model those reads with a record of their results at the moment of the
reconciliation.  `rainSetPointReached` is the rain set-point reader the
protocol client exposes per the external-interface contract; the device
code never reads it. -/
structure Service where
  /-- result of `isInUse()` -/
  inUse : Bool
  /-- the `zones` property: the controller's zone indices, in order -/
  zones : List Nat
  /-- `isActive(z)` is truthy exactly for the members of this list -/
  activeSet : List Nat
  /-- `remainingDuration(z)`: association list from zone index to the
  remaining whole seconds; absent key models `undefined` -/
  remainingMap : List (Nat × Nat)
  /-- the rain set-point flag the service exposes (unused by device.ts) -/
  rainSetPointReached : Bool
deriving DecidableEq, Repr

/-- `getCurrentZoneId` (device.ts 16-26): iterate `rainbirdService?.zones ?? []`
and return the first zone for which `isActive(zone)` is truthy, else
`undefined`.  With no service the `?.` chain yields `undefined`, the loop
runs over `[]`, and the result is `undefined`. -/
def getCurrentZoneId (svc : Option Service) : Option Nat :=
  match svc with
  | none => none
  | some s => s.zones.find? (fun z => s.activeSet.contains z)

/-- `this.rainbirdService?.isInUse() ?? false` (device.ts 29). -/
def svcInUse (svc : Option Service) : Bool :=
  (svc.map Service.inUse).getD false

/-- `this.rainbirdService?.remainingDuration(id)` (device.ts 49), before the
`?? 0` default. -/
def remainingDuration (svc : Option Service) (id : Nat) : Option Nat :=
  svc.bind fun s => s.remainingMap.lookup id

/-- JavaScript truthiness of an optional number: `undefined` and `0` are
falsy, everything else truthy. -/
def truthy (o : Option Nat) : Bool :=
  o.getD 0 != 0

/-! ## Controller runtime state and reified effects -/

/-- Value written to a Homey capability. -/
inductive CapVal where
  | bool (b : Bool)
  | str (s : String)
deriving DecidableEq, Repr

/-- One observable side effect of the device code, in statement order:
a flow trigger card firing, a capability write, or the scheduling of a
countdown tick via `homey.setTimeout`. -/
inductive Effect where
  | trigger (card : String)
  | setCap (cap : String) (v : CapVal)
  | scheduleTick (delayMs : Nat)
deriving DecidableEq, Repr

/-- The mutable instance fields of `RainbirdDevice` that the state logic
touches, plus the last-written value of each capability (Homey capability
values start out `null`, hence the `Option`s). -/
structure Ctrl where
  /-- last value written to (or initial `null` of) capability `is_active` -/
  isActiveCap : Option Bool
  /-- last value of capability `active_zone` -/
  activeZoneCap : Option String
  /-- last value of capability `zone_time_left` -/
  timeLeftCap : Option String
  /-- `this.endTime` as epoch milliseconds -/
  endTime : Option Nat
  /-- `this.cancelLoop` -/
  cancelLoop : Bool
  /-- whether a `setTimeout` tick is currently pending (`this.timeoutId`
  pointing at a live timeout) -/
  pendingTick : Bool
  /-- `this.zones`, the configured zones from settings -/
  zones : List Zone
deriving DecidableEq, Repr

/-- The freshly constructed device instance: field initialisers of
`RainbirdDevice` (device.ts 8-14): no capability written yet, no `endTime`,
`cancelLoop = true`, no pending timeout. -/
def initCtrl (zones : List Zone) : Ctrl :=
  { isActiveCap := none, activeZoneCap := none, timeLeftCap := none,
    endTime := none, cancelLoop := true, pendingTick := false, zones := zones }

/-! ## Countdown timer tick (`updateTime`, device.ts 227-245) -/

/-- The string a tick writes to `zone_time_left` (device.ts 230-240):
`"-"` if there is no `endTime` or `now` is strictly past it, otherwise the
remaining time formatted.  The source computes
`remaining = (endTime - now) / 1000` seconds and passes it to `formatTime`,
which multiplies by 1000 again; the composition displays exactly
`isoTimeOfDay (endTime - now)` (number arithmetic taken exact). -/
def tickDisplay (endTime : Option Nat) (now : Nat) : String :=
  match endTime with
  | some e => if now > e then "-" else isoTimeOfDay (e - now)
  | none => "-"

/-- `this.cancelLoop` after the tick body (device.ts 230-240): set to `true`
exactly when `endTime` exists and `now` is strictly past it, otherwise
unchanged. -/
def tickCancel (endTime : Option Nat) (now : Nat) (cancelLoop : Bool) : Bool :=
  match endTime with
  | some e => if now > e then true else cancelLoop
  | none => cancelLoop

/-- `updateTime` (device.ts 227-245).  `now` is `Date.now()` in ms.  Writes
`tickDisplay` to the `zone_time_left` capability, updates `cancelLoop`, and,
if `cancelLoop` is still false, reschedules itself `1000 - (now % 1000)` ms
later (next whole-second boundary). -/
def updateTime (now : Nat) (st : Ctrl) : Ctrl × List Effect :=
  let display := tickDisplay st.endTime now
  let cancel := tickCancel st.endTime now st.cancelLoop
  let st1 := { st with timeLeftCap := some display, cancelLoop := cancel }
  if cancel then
    (st1, [Effect.setCap "zone_time_left" (.str display)])
  else
    ({ st1 with pendingTick := true },
     [Effect.setCap "zone_time_left" (.str display),
      Effect.scheduleTick (1000 - now % 1000)])

/-! ## Reconciliation (`getCurrentStatus`, device.ts 28-68) -/

/-- Device.ts 42-47: resolve a zone id against the configured zones:
`this.zones.find((z) => z.index === currentZoneId)`; publish the matched
zone's `name`, or the literal `"Unknown"` if no zone matches. -/
def zoneNameFor (zones : List Zone) (id : Nat) : String :=
  match zones.find? (fun z => z.index == id) with
  | some z => z.name
  | none => "Unknown"

/-- Device.ts 41-67: the part of `getCurrentStatus` from `if (currentZoneId)`
on (zone-name publication, end-time computation, countdown start/stop, and
the inactive branch). -/
def zonePart (svc : Option Service) (now : Nat) (st : Ctrl) : Ctrl × List Effect :=
  let currentZoneId := getCurrentZoneId svc
  if truthy currentZoneId then
    let id := currentZoneId.getD 0
    let name := zoneNameFor st.zones id
    let st1 := { st with activeZoneCap := some name }
    let evs1 := [Effect.setCap "active_zone" (.str name)]
    let duration := (remainingDuration svc id).getD 0
    if duration != 0 then
      let st2 := { st1 with endTime := some (now + 1000 * duration) }
      if st2.cancelLoop then
        -- `this.cancelLoop = false; await this.updateTime();`
        let res := updateTime now { st2 with cancelLoop := false }
        (res.1, evs1 ++ res.2)
      else
        (st2, evs1)
    else
      ({ st1 with timeLeftCap := some "-", cancelLoop := true },
       evs1 ++ [Effect.setCap "zone_time_left" (.str "-")])
  else
    ({ st with endTime := none, cancelLoop := true,
               activeZoneCap := some "None", timeLeftCap := some "-" },
     [Effect.setCap "active_zone" (.str "None"),
      Effect.setCap "zone_time_left" (.str "-")])

/-- `getCurrentStatus` (device.ts 28-68): read `isInUse` and the current zone
id from the service; if not `initial` and `isInUse` differs (JS `!==`)
from the last `is_active` capability value, fire the `turns_on`/`turns_off`
trigger card; then write `is_active`; then run the zone part. -/
def getCurrentStatus (svc : Option Service) (now : Nat) (initial : Bool) (st : Ctrl) :
    Ctrl × List Effect :=
  let isInUse := svcInUse svc
  let evs0 :=
    if !initial && !(st.isActiveCap == some isInUse) then
      [Effect.trigger (if isInUse then "turns_on" else "turns_off")]
    else []
  let res := zonePart svc now { st with isActiveCap := some isInUse }
  (res.1, evs0 ++ Effect.setCap "is_active" (.bool isInUse) :: res.2)

/-! ## Flow-card run listeners (device.ts 264-323) -/

/-- A command issued to the protocol client by a run listener. -/
inductive SvcCall where
  | deactivateAllZones
  | stopIrrigation
  | activateZone (zoneIndex : Nat) (seconds : Nat)
  | deactivateZone (zoneIndex : Nat)
deriving DecidableEq, Repr

/-- Optional chaining `this.rainbirdService?.cmd(...)`: the command is issued
only when the service is present. -/
def chain (svcPresent : Bool) (c : SvcCall) : List SvcCall :=
  if svcPresent then [c] else []

/-- Run listener of `start_zone_X_minutes` (device.ts 264-282).  Guard
`if (zone && minutes)` requires both args truthy (`minutes = 0` is falsy).
With queueing disabled it first issues `deactivateAllZones()` then
`stopIrrigation()`, then in all cases `activateZone(index, minutes * 60)`. -/
def startZoneWithTimeListener (enableQueueing svcPresent : Bool)
    (zone : Option Zone) (minutes : Nat) : List SvcCall :=
  match zone with
  | none => []
  | some z =>
    if minutes != 0 then
      (if !enableQueueing then
        chain svcPresent .deactivateAllZones ++ chain svcPresent .stopIrrigation
       else []) ++
      chain svcPresent (.activateZone z.index (minutes * 60))
    else []

/-- Run listener of `start_zone` (device.ts 284-303): identical policy, with
the duration taken from the `defaultIrrigationTime` setting and guarded only
by `if (zone)`. -/
def startZoneListener (enableQueueing svcPresent : Bool)
    (zone : Option Zone) (defaultIrrigationTime : Nat) : List SvcCall :=
  match zone with
  | none => []
  | some z =>
    (if !enableQueueing then
      chain svcPresent .deactivateAllZones ++ chain svcPresent .stopIrrigation
     else []) ++
    chain svcPresent (.activateZone z.index (defaultIrrigationTime * 60))

/-- The observable outcome of one run-listener invocation: the protocol
calls it issued, the error it threw out of the handler (if any), and the
errors its `.catch((e) => this.error(e))` handlers logged. -/
structure HandlerOutcome where
  calls : List SvcCall
  thrown : Option String
  logged : List String
deriving DecidableEq, Repr

/-- `promise.catch((e) => this.error(e))` applied to the settled outcome of
a delegated call: a rejection is logged via `this.error`, never rethrown;
the pair is (error thrown out of the handler, errors logged). -/
def catchLogged (r : Except String Unit) : Option String × List String :=
  match r with
  | .ok _ => (none, [])
  | .error e => (none, [e])

/-- Run listener of `stop_zone` (device.ts 305-315):
`this.rainbirdService?.deactivateZone(zone.index).catch((e) => this.error(e))`.
`deactivateResult` is how the delegated promise settles. -/
def stopZoneListener (svcPresent : Bool) (zone : Option Zone)
    (deactivateResult : Except String Unit) : HandlerOutcome :=
  match zone with
  | none => { calls := [], thrown := none, logged := [] }
  | some z =>
    if svcPresent then
      let c := catchLogged deactivateResult
      { calls := [.deactivateZone z.index], thrown := c.1, logged := c.2 }
    else { calls := [], thrown := none, logged := [] }

/-- Run listener of `stop_irrigation` (device.ts 317-323): an un-awaited
`deactivateAllZones()` followed by
`stopIrrigation().catch((e) => this.error(e))`.  `stopResult` is how the
`stopIrrigation()` promise settles; neither call is awaited, so nothing is
thrown out of the handler. -/
def stopIrrigationListener (svcPresent : Bool)
    (stopResult : Except String Unit) : HandlerOutcome :=
  if svcPresent then
    let c := catchLogged stopResult
    { calls := [.deactivateAllZones, .stopIrrigation], thrown := c.1, logged := c.2 }
  else { calls := [], thrown := none, logged := [] }

/-! ## Event traces: status pushes and settings-driven re-instantiation -/

/-- The countdown timer is running: a scheduled tick is pending and is not
flagged for cancellation (a pending tick with `cancelLoop = true` fires at
most once more and never reschedules, so it is stopping, not running). -/
def countdownRunning (st : Ctrl) : Bool :=
  st.pendingTick && !st.cancelLoop

/-- An external event driving the controller state:
* `recon svc now` — a `'status'` push from the service triggers
  `this.getCurrentStatus()` with `initial = false` (device.ts 119-121);
* `settingsChange svc now` — `onSettings` (device.ts 180-201):
  `clearTimeout(this.timeoutId)` (the pending tick dies), stop commands are
  issued against the old service binding (external side effects), then
  `instantiateController` rebuilds the binding, `svc` being the fresh
  service's state, and runs `getCurrentStatus(true)`.  Nothing resets
  `cancelLoop` or the other instance fields. -/
inductive Ev where
  | recon (svc : Option Service) (now : Nat)
  | settingsChange (svc : Option Service) (now : Nat)

/-- One event step of the controller state. -/
def stepEv (st : Ctrl) (ev : Ev) : Ctrl :=
  match ev with
  | .recon svc now => (getCurrentStatus svc now false st).1
  | .settingsChange svc now =>
    (getCurrentStatus svc now true { st with pendingTick := false }).1

/-- Run a sequence of events. -/
def runEvents (st : Ctrl) (evs : List Ev) : Ctrl :=
  evs.foldl stepEv st

/-- Whether a reconciliation against `svc` observes a present (truthy)
active zone id together with a positive remaining duration. -/
def observedActivePositive (svc : Option Service) : Bool :=
  truthy (getCurrentZoneId svc) &&
    (remainingDuration svc ((getCurrentZoneId svc).getD 0)).getD 0 != 0

/-! ## Effect classifiers -/

/-- The `turns_on` / `turns_off` trigger effects of an effect list. -/
def turnEvents (l : List Effect) : List Effect :=
  l.filter fun e =>
    match e with
    | .trigger c => c == "turns_on" || c == "turns_off"
    | _ => false

/-- The `rain_set_point_changed` / `rain_set_point_reached` trigger effects
of an effect list. -/
def rainEvents (l : List Effect) : List Effect :=
  l.filter fun e =>
    match e with
    | .trigger c => c == "rain_set_point_changed" || c == "rain_set_point_reached"
    | _ => false

/-- The `scheduleTick` effects of an effect list. -/
def tickSchedules (l : List Effect) : List Effect :=
  l.filter fun e =>
    match e with
    | .scheduleTick _ => true
    | _ => false

/-! ## Concrete fixtures used by witnesses, counterexamples and evaluations -/

/-- A device whose `is_active` capability was last published as `false`. -/
def stActiveFalse : Ctrl :=
  { initCtrl [] with isActiveCap := some false }

/-- A service reporting `isInUse() = true` but no active zone. -/
def svcOn : Service :=
  { inUse := true, zones := [], activeSet := [], remainingMap := [],
    rainSetPointReached := false }

/-- A service whose rain set-point flag is raised. -/
def svcRainOn : Service :=
  { inUse := true, zones := [1], activeSet := [], remainingMap := [],
    rainSetPointReached := true }

/-- A service whose only configured controller zone, number 9, is active for
another 60 seconds. -/
def svcZone9 : Service :=
  { inUse := true, zones := [9], activeSet := [9], remainingMap := [(9, 60)],
    rainSetPointReached := false }

/-- A device configured with known zones 1, 2 and 4. -/
def stZones124 : Ctrl :=
  initCtrl [⟨1, "Lawn"⟩, ⟨2, "Beds"⟩, ⟨4, "Drip line"⟩]

/-- A service reporting zone 1 in use with 300 seconds remaining. -/
def svcRun : Option Service :=
  some { inUse := true, zones := [1], activeSet := [1], remainingMap := [(1, 300)],
         rainSetPointReached := false }

/-- A device mid-countdown: the session ends at epoch ms 5000, the tick loop
is armed (`cancelLoop = false`) with a pending timeout. -/
def stMidCountdown : Ctrl :=
  { isActiveCap := some true, activeZoneCap := some "Front yard",
    timeLeftCap := some "00:00:01", endTime := some 5000, cancelLoop := false,
    pendingTick := true, zones := [⟨1, "Front yard"⟩] }

/-- Like `stMidCountdown`, with the session end at epoch ms 10000. -/
def stMidCountdown10 : Ctrl :=
  { stMidCountdown with endTime := some 10000 }

/-! ## Supporting lemmas -/

theorem turnEvents_append (a b : List Effect) :
    turnEvents (a ++ b) = turnEvents a ++ turnEvents b := by
  simp [turnEvents]

theorem rainEvents_append (a b : List Effect) :
    rainEvents (a ++ b) = rainEvents a ++ rainEvents b := by
  simp [rainEvents]

theorem turnEvents_updateTime (now : Nat) (st : Ctrl) :
    turnEvents (updateTime now st).2 = [] := by
  simp only [updateTime]
  split <;> rfl

theorem rainEvents_updateTime (now : Nat) (st : Ctrl) :
    rainEvents (updateTime now st).2 = [] := by
  simp only [updateTime]
  split <;> rfl

/-- A tick never touches the capability fields other than `zone_time_left`,
nor `endTime` or the configured zones. -/
theorem updateTime_preserves (now : Nat) (st : Ctrl) :
    (updateTime now st).1.isActiveCap = st.isActiveCap ∧
    (updateTime now st).1.activeZoneCap = st.activeZoneCap ∧
    (updateTime now st).1.endTime = st.endTime ∧
    (updateTime now st).1.zones = st.zones := by
  simp only [updateTime]
  split <;> exact ⟨rfl, rfl, rfl, rfl⟩

theorem turnEvents_zonePart (svc : Option Service) (now : Nat) (st : Ctrl) :
    turnEvents (zonePart svc now st).2 = [] := by
  simp only [zonePart]
  split
  · split
    · split
      · rw [turnEvents_append, turnEvents_updateTime]
        rfl
      · rfl
    · rw [turnEvents_append]
      rfl
  · rfl

theorem rainEvents_zonePart (svc : Option Service) (now : Nat) (st : Ctrl) :
    rainEvents (zonePart svc now st).2 = [] := by
  simp only [zonePart]
  split
  · split
    · split
      · rw [rainEvents_append, rainEvents_updateTime]
        rfl
      · rfl
    · rw [rainEvents_append]
      rfl
  · rfl

/-- The edge-triggered `turns_on`/`turns_off` events of a reconciliation are
exactly the ones the comparison at device.ts 32-37 produces: none when
`initial` or when `isInUse` equals the previous capability value, and the
single matching trigger otherwise. -/
theorem turnEvents_getCurrentStatus (svc : Option Service) (now : Nat)
    (initial : Bool) (st : Ctrl) :
    turnEvents (getCurrentStatus svc now initial st).2 =
      if !initial && !(st.isActiveCap == some (svcInUse svc)) then
        [Effect.trigger (if svcInUse svc then "turns_on" else "turns_off")]
      else [] := by
  simp only [getCurrentStatus]
  rw [show (Effect.setCap "is_active" (CapVal.bool (svcInUse svc)) ::
        (zonePart svc now { st with isActiveCap := some (svcInUse svc) }).2) =
      [Effect.setCap "is_active" (CapVal.bool (svcInUse svc))] ++
        (zonePart svc now { st with isActiveCap := some (svcInUse svc) }).2 from rfl]
  rw [turnEvents_append, turnEvents_append, turnEvents_zonePart]
  cases hu : svcInUse svc <;> split <;> simp [turnEvents]

/-- A reconciliation never emits a rain set-point trigger. -/
theorem rainEvents_getCurrentStatus (svc : Option Service) (now : Nat)
    (initial : Bool) (st : Ctrl) :
    rainEvents (getCurrentStatus svc now initial st).2 = [] := by
  simp only [getCurrentStatus]
  rw [show (Effect.setCap "is_active" (CapVal.bool (svcInUse svc)) ::
        (zonePart svc now { st with isActiveCap := some (svcInUse svc) }).2) =
      [Effect.setCap "is_active" (CapVal.bool (svcInUse svc))] ++
        (zonePart svc now { st with isActiveCap := some (svcInUse svc) }).2 from rfl]
  rw [rainEvents_append, rainEvents_append, rainEvents_zonePart]
  cases hu : svcInUse svc <;> split <;> simp [rainEvents]

/-- The display a tick derives from a millisecond remainder is the Time
Formatter applied to the corresponding whole-second remainder: the source's
`formatTime((endTime - now) / 1000)` builds `Date(endTime - now)`, whose
`HH:MM:SS` rendering depends only on whole seconds. -/
theorem isoTimeOfDay_ms_div (ms : Nat) :
    isoTimeOfDay ms = formatTime (some (ms / 1000)) := by
  have h1 : ms / 3600000 % 24 = ms / 1000 * 1000 / 3600000 % 24 := by omega
  have h2 : ms / 60000 % 60 = ms / 1000 * 1000 / 60000 % 60 := by omega
  have h3 : ms / 1000 % 60 = ms / 1000 * 1000 / 1000 % 60 := by omega
  simp only [formatTime, isoTimeOfDay, h1, h2, h3]

/-- With a truthy current zone id, the reconciliation leaves `active_zone`
holding the resolved zone name (found name or `"Unknown"`). -/
theorem zonePart_activeZoneCap_of_truthy (svc : Option Service) (now : Nat)
    (st : Ctrl) (id : Nat) (h : getCurrentZoneId svc = some id) (h0 : id ≠ 0) :
    (zonePart svc now st).1.activeZoneCap = some (zoneNameFor st.zones id) := by
  have ht : truthy (some id) = true := by simp [truthy, h0]
  simp only [zonePart, h, Option.getD_some, ht, if_true]
  split
  · split
    · exact (updateTime_preserves now _).2.1
    · rfl
  · rfl

/-- With no current zone id, the reconciliation takes the inactive branch of
device.ts 62-67. -/
theorem zonePart_inactive (svc : Option Service) (now : Nat) (st : Ctrl)
    (h : getCurrentZoneId svc = none) :
    zonePart svc now st =
      ({ st with endTime := none, cancelLoop := true,
                 activeZoneCap := some "None", timeLeftCap := some "-" },
       [Effect.setCap "active_zone" (.str "None"),
        Effect.setCap "zone_time_left" (.str "-")]) := by
  have ht : truthy (getCurrentZoneId svc) = false := by simp [truthy, h]
  simp only [zonePart, ht]
  rfl

end Rainbird

namespace Rainbird

/-- **C2**: for every reconciliation, (a) if the snapshot's `isInUse` equals
the last published `is_active` value, zero `turns_on`/`turns_off` events are
emitted; (b) when `initial` is true, none is emitted regardless of snapshot
content; (c) if they differ and the call is not initial, exactly one
edge-triggered event is emitted — `turns_on` if now in use, `turns_off`
otherwise — and it occurs in the effect sequence before the `is_active`
capability write. -/
theorem C2_edge_triggered_events :
    (∀ (svc : Option Service) (now : Nat) (initial : Bool) (st : Ctrl),
        st.isActiveCap = some (svcInUse svc) →
        turnEvents (getCurrentStatus svc now initial st).2 = []) ∧
    (∀ (svc : Option Service) (now : Nat) (st : Ctrl),
        turnEvents (getCurrentStatus svc now true st).2 = []) ∧
    (∀ (svc : Option Service) (now : Nat) (st : Ctrl),
        st.isActiveCap ≠ some (svcInUse svc) →
        ∃ tail,
          (getCurrentStatus svc now false st).2 =
            Effect.trigger (if svcInUse svc then "turns_on" else "turns_off") ::
              Effect.setCap "is_active" (.bool (svcInUse svc)) :: tail ∧
          turnEvents (getCurrentStatus svc now false st).2 =
            [Effect.trigger (if svcInUse svc then "turns_on" else "turns_off")]) := by
  refine ⟨?_, ?_, ?_⟩
  · intro svc now initial st h
    rw [turnEvents_getCurrentStatus]
    simp [h]
  · intro svc now st
    rw [turnEvents_getCurrentStatus]
    simp
  · intro svc now st h
    have hb : (st.isActiveCap == some (svcInUse svc)) = false := by
      simp [h]
    refine ⟨(zonePart svc now { st with isActiveCap := some (svcInUse svc) }).2, ?_, ?_⟩
    · simp only [getCurrentStatus, hb]
      rfl
    · rw [turnEvents_getCurrentStatus]
      simp [hb]

/-- Witness of C2 at concrete inputs: an unchanged snapshot emits no turn
event, and a changed non-initial one emits exactly the leading `turns_on`
followed by the `is_active` write. -/
theorem C2_edge_triggered_events_witness :
    turnEvents (getCurrentStatus none 0 false stActiveFalse).2 = [] ∧
    turnEvents (getCurrentStatus (some svcOn) 0 true stActiveFalse).2 = [] ∧
    (∃ tail,
      (getCurrentStatus (some svcOn) 0 false stActiveFalse).2 =
        Effect.trigger (if svcInUse (some svcOn) then "turns_on" else "turns_off") ::
          Effect.setCap "is_active" (.bool (svcInUse (some svcOn))) :: tail ∧
      turnEvents (getCurrentStatus (some svcOn) 0 false stActiveFalse).2 =
        [Effect.trigger (if svcInUse (some svcOn) then "turns_on" else "turns_off")]) :=
  ⟨C2_edge_triggered_events.1 none 0 false stActiveFalse rfl,
   C2_edge_triggered_events.2.1 (some svcOn) 0 stActiveFalse,
   C2_edge_triggered_events.2.2 (some svcOn) 0 stActiveFalse (by decide)⟩

/-- **C3 (amended)**: the reconciliation of device.ts 28-68 does not track
the rain set-point flag at all: it emits no `rain_set_point_changed` or
`rain_set_point_reached` trigger on any input, and its result is entirely
independent of the service's `rainSetPointReached` value. -/
theorem C3_no_rain_set_point_handling :
    (∀ (svc : Option Service) (now : Nat) (initial : Bool) (st : Ctrl),
        rainEvents (getCurrentStatus svc now initial st).2 = []) ∧
    (∀ (s : Service) (b : Bool) (now : Nat) (initial : Bool) (st : Ctrl),
        getCurrentStatus (some { s with rainSetPointReached := b }) now initial st =
          getCurrentStatus (some s) now initial st) := by
  refine ⟨fun svc now initial st => rainEvents_getCurrentStatus svc now initial st, ?_⟩
  intro s b now initial st
  cases s
  rfl

/-- **C3 counterexample**: a reconciliation that observes the rain set-point
flag raised (a change from the initial unpublished/false state) emits no
`rain_set_point_changed` (nor `rain_set_point_reached`) event, contradicting
the claim that any change emits one. -/
theorem C3_counterexample :
    svcRainOn.rainSetPointReached = true ∧
    rainEvents (getCurrentStatus (some svcRainOn) 0 false (initCtrl [])).2 = [] := by
  exact ⟨rfl, by decide⟩

/-- **C6**: with a present (truthy) `activeZoneId`, the reconciliation
publishes the matching known zone's name as `active_zone`, or the literal
`"Unknown"` when no known zone has that index; with an absent id it clears
`endTime` and publishes `active_zone = "None"`, `zone_time_left = "-"`. -/
theorem C6_active_zone_publication :
    (∀ (svc : Option Service) (now : Nat) (initial : Bool) (st : Ctrl) (id : Nat) (z : Zone),
        getCurrentZoneId svc = some id → id ≠ 0 →
        st.zones.find? (fun zz => zz.index == id) = some z →
        (getCurrentStatus svc now initial st).1.activeZoneCap = some z.name) ∧
    (∀ (svc : Option Service) (now : Nat) (initial : Bool) (st : Ctrl) (id : Nat),
        getCurrentZoneId svc = some id → id ≠ 0 →
        st.zones.find? (fun zz => zz.index == id) = none →
        (getCurrentStatus svc now initial st).1.activeZoneCap = some "Unknown") ∧
    (∀ (svc : Option Service) (now : Nat) (initial : Bool) (st : Ctrl),
        getCurrentZoneId svc = none →
        (getCurrentStatus svc now initial st).1.endTime = none ∧
        (getCurrentStatus svc now initial st).1.activeZoneCap = some "None" ∧
        (getCurrentStatus svc now initial st).1.timeLeftCap = some "-") := by
  refine ⟨?_, ?_, ?_⟩
  · intro svc now initial st id z h h0 hf
    show (zonePart svc now { st with isActiveCap := some (svcInUse svc) }).1.activeZoneCap = _
    rw [zonePart_activeZoneCap_of_truthy svc now _ id h h0]
    simp [zoneNameFor, hf]
  · intro svc now initial st id h h0 hf
    show (zonePart svc now { st with isActiveCap := some (svcInUse svc) }).1.activeZoneCap = _
    rw [zonePart_activeZoneCap_of_truthy svc now _ id h h0]
    simp [zoneNameFor, hf]
  · intro svc now initial st h
    have hz := zonePart_inactive svc now { st with isActiveCap := some (svcInUse svc) } h
    refine ⟨?_, ?_, ?_⟩
    · show (zonePart svc now { st with isActiveCap := some (svcInUse svc) }).1.endTime = none
      rw [hz]
    · show (zonePart svc now
          { st with isActiveCap := some (svcInUse svc) }).1.activeZoneCap = some "None"
      rw [hz]
    · show (zonePart svc now
          { st with isActiveCap := some (svcInUse svc) }).1.timeLeftCap = some "-"
      rw [hz]

/-- Witness of C6: active zone 9 against known zones {1,2,4} publishes
`"Unknown"`; an absent id publishes `"None"` and `"-"` and clears
`endTime`. -/
theorem C6_active_zone_publication_witness :
    (getCurrentZoneId (some svcZone9) = some 9 ∧ (9 : Nat) ≠ 0 ∧
      stZones124.zones.find? (fun zz => zz.index == 9) = none ∧
      (getCurrentStatus (some svcZone9) 0 false stZones124).1.activeZoneCap = some "Unknown") ∧
    (getCurrentZoneId none = none ∧
      (getCurrentStatus none 0 false stZones124).1.endTime = none ∧
      (getCurrentStatus none 0 false stZones124).1.activeZoneCap = some "None" ∧
      (getCurrentStatus none 0 false stZones124).1.timeLeftCap = some "-") :=
  ⟨⟨by decide, by decide, by decide,
    C6_active_zone_publication.2.1 (some svcZone9) 0 false stZones124 9
      (by decide) (by decide) (by decide)⟩,
   ⟨rfl,
    (C6_active_zone_publication.2.2 none 0 false stZones124 rfl).1,
    (C6_active_zone_publication.2.2 none 0 false stZones124 rfl).2.1,
    (C6_active_zone_publication.2.2 none 0 false stZones124 rfl).2.2⟩⟩

/-- **C9**: reconciliation is a total function (never raises), and with a
missing protocol client it degrades to the inactive branch: `is_active` is
published `false`, `active_zone` `"None"`, `zone_time_left` `"-"`, and
`endTime` is cleared. -/
theorem C9_missing_client_degrades :
    ∀ (now : Nat) (initial : Bool) (st : Ctrl),
      (getCurrentStatus none now initial st).1.isActiveCap = some false ∧
      (getCurrentStatus none now initial st).1.activeZoneCap = some "None" ∧
      (getCurrentStatus none now initial st).1.timeLeftCap = some "-" ∧
      (getCurrentStatus none now initial st).1.endTime = none ∧
      (getCurrentStatus none now initial st).1.cancelLoop = true ∧
      Effect.setCap "is_active" (.bool false) ∈ (getCurrentStatus none now initial st).2 ∧
      Effect.setCap "active_zone" (.str "None") ∈ (getCurrentStatus none now initial st).2 ∧
      Effect.setCap "zone_time_left" (.str "-") ∈ (getCurrentStatus none now initial st).2 := by
  intro now initial st
  simp only [getCurrentStatus, zonePart, svcInUse, getCurrentZoneId, truthy]
  simp

/-- **C1**: for a start request (`start_zone` or `start_zone_X_minutes`)
with a known zone and positive duration: with `enableQueueing = false` the
listener issues the stop-all pair (`deactivateAllZones` then
`stopIrrigation`) before `activateZone`, in that order; with
`enableQueueing = true` only `activateZone` is issued and no stop-all
occurs. -/
theorem C1_start_request_queueing_policy :
    ∀ (z : Zone) (m : Nat), 0 < m →
      startZoneWithTimeListener false true (some z) m =
        [SvcCall.deactivateAllZones, SvcCall.stopIrrigation,
         SvcCall.activateZone z.index (m * 60)] ∧
      startZoneWithTimeListener true true (some z) m =
        [SvcCall.activateZone z.index (m * 60)] ∧
      startZoneListener false true (some z) m =
        [SvcCall.deactivateAllZones, SvcCall.stopIrrigation,
         SvcCall.activateZone z.index (m * 60)] ∧
      startZoneListener true true (some z) m =
        [SvcCall.activateZone z.index (m * 60)] := by
  intro z m hm
  have hm' : (m != 0) = true := by
    simp [Nat.pos_iff_ne_zero.mp hm]
  refine ⟨?_, ?_, ?_, ?_⟩ <;>
    simp [startZoneWithTimeListener, startZoneListener, chain, hm']

/-- Witness of C1: starting zone 3 for 5 minutes (300 seconds). -/
theorem C1_start_request_queueing_policy_witness :
    0 < 5 ∧
    (startZoneWithTimeListener false true (some ⟨3, "Zone 3"⟩) 5 =
       [SvcCall.deactivateAllZones, SvcCall.stopIrrigation,
        SvcCall.activateZone (Zone.mk 3 "Zone 3").index (5 * 60)] ∧
     startZoneWithTimeListener true true (some ⟨3, "Zone 3"⟩) 5 =
       [SvcCall.activateZone (Zone.mk 3 "Zone 3").index (5 * 60)] ∧
     startZoneListener false true (some ⟨3, "Zone 3"⟩) 5 =
       [SvcCall.deactivateAllZones, SvcCall.stopIrrigation,
        SvcCall.activateZone (Zone.mk 3 "Zone 3").index (5 * 60)] ∧
     startZoneListener true true (some ⟨3, "Zone 3"⟩) 5 =
       [SvcCall.activateZone (Zone.mk 3 "Zone 3").index (5 * 60)]) :=
  ⟨by decide, C1_start_request_queueing_policy ⟨3, "Zone 3"⟩ 5 (by decide)⟩

/-- **C4 evaluation**: the countdown-running invariant fails across a
settings-driven re-instantiation.  A reconciliation observing zone 1 active
with 300 s remaining starts the countdown; after it, the timer is running.
It keeps running over further such reconciliations.  But after a settings
change (`onSettings` clears the pending timeout, yet never resets
`cancelLoop`; `instantiateController` then reconciles with `initial = true`,
whose active branch skips `updateTime` because `cancelLoop` is still false),
the timer has no pending tick — it is not running — although the most recent
reconciliation observed a present active zone id with positive remaining
seconds. -/
theorem C4_settings_reinstantiation_breaks_countdown :
    observedActivePositive svcRun = true ∧
    countdownRunning (runEvents (initCtrl [⟨1, "Front yard"⟩])
      [Ev.recon svcRun 10000]) = true ∧
    countdownRunning (runEvents (initCtrl [⟨1, "Front yard"⟩])
      [Ev.recon svcRun 10000, Ev.recon svcRun 20000]) = true ∧
    countdownRunning (runEvents (initCtrl [⟨1, "Front yard"⟩])
      [Ev.recon svcRun 10000, Ev.settingsChange svcRun 20000]) = false := by
  refine ⟨by decide, by decide, by decide, by decide⟩

/-- **C5 counterexample**: at a tick arriving exactly at `endTime`
(`now = endTime = 5000`), the claim says the tick publishes `"-"` and stops;
the code's strict `now > endTime` comparison instead takes the live branch,
publishes `"00:00:00"` and reschedules a tick 1000 ms later, leaving
`cancelLoop` false. -/
theorem C5_tick_at_endTime_counterexample :
    stMidCountdown.endTime = some 5000 ∧
    (updateTime 5000 stMidCountdown).2 =
      [Effect.setCap "zone_time_left" (.str "00:00:00"),
       Effect.scheduleTick 1000] ∧
    (updateTime 5000 stMidCountdown).1.cancelLoop = false := by
  refine ⟨rfl, by decide, rfl⟩

/-- **C5 (amended)**: for a tick with an `endTime` and the loop armed: if
`now` is strictly past `endTime` it publishes `"-"`, stops, and schedules
nothing; if `now` is at or before `endTime` it publishes the remaining time
`endTime - now` rendered as `HH:MM:SS` (the Time Formatter applied to the
remaining whole seconds) and reschedules itself exactly
`1000 - (now mod 1000)` ms later, not a flat 1000 ms. -/
theorem C5_tick_behavior :
    ∀ (now e : Nat) (st : Ctrl), st.endTime = some e → st.cancelLoop = false →
      (now > e →
        (updateTime now st).2 = [Effect.setCap "zone_time_left" (.str "-")] ∧
        (updateTime now st).1.cancelLoop = true ∧
        tickSchedules (updateTime now st).2 = []) ∧
      (now ≤ e →
        (updateTime now st).2 =
          [Effect.setCap "zone_time_left" (.str (isoTimeOfDay (e - now))),
           Effect.scheduleTick (1000 - now % 1000)] ∧
        (updateTime now st).1.timeLeftCap =
          some (formatTime (some ((e - now) / 1000))) ∧
        (updateTime now st).1.cancelLoop = false) := by
  intro now e st he hc
  refine ⟨fun hgt => ?_, fun hle => ?_⟩
  · have hd : tickDisplay st.endTime now = "-" := by
      simp [tickDisplay, he, hgt]
    have hca : tickCancel st.endTime now st.cancelLoop = true := by
      simp [tickCancel, he, hgt]
    simp [updateTime, hd, hca, tickSchedules]
  · have hngt : ¬ now > e := Nat.not_lt.mpr hle
    have hd : tickDisplay st.endTime now = isoTimeOfDay (e - now) := by
      simp [tickDisplay, he, hngt]
    have hca : tickCancel st.endTime now st.cancelLoop = false := by
      simp [tickCancel, he, hngt, hc]
    simp [updateTime, hd, hca, isoTimeOfDay_ms_div]

/-- Witness of C5 at `endTime = 10000`: a late tick (`now = 12000`) and a
live tick (`now = 3500`). -/
theorem C5_tick_behavior_witness :
    (12000 > 10000 ∧
      (updateTime 12000 stMidCountdown10).2 =
        [Effect.setCap "zone_time_left" (.str "-")] ∧
      (updateTime 12000 stMidCountdown10).1.cancelLoop = true ∧
      tickSchedules (updateTime 12000 stMidCountdown10).2 = []) ∧
    (3500 ≤ 10000 ∧
      (updateTime 3500 stMidCountdown10).2 =
        [Effect.setCap "zone_time_left" (.str (isoTimeOfDay (10000 - 3500))),
         Effect.scheduleTick (1000 - 3500 % 1000)] ∧
      (updateTime 3500 stMidCountdown10).1.timeLeftCap =
        some (formatTime (some ((10000 - 3500) / 1000))) ∧
      (updateTime 3500 stMidCountdown10).1.cancelLoop = false) :=
  ⟨⟨by decide, (C5_tick_behavior 12000 10000 stMidCountdown10 rfl rfl).1 (by decide)⟩,
   ⟨by decide, (C5_tick_behavior 3500 10000 stMidCountdown10 rfl rfl).2 (by decide)⟩⟩

/-- **C8**: the `stop_zone` and `stop_irrigation` run listeners never throw:
a rejection of the delegated `deactivateZone` / `stopIrrigation` promise is
caught by `.catch((e) => this.error(e))` and logged, and the handler's
thrown error is `none` on every input. -/
theorem C8_stop_failures_never_thrown :
    (∀ (present : Bool) (zone : Option Zone) (r : Except String Unit),
        (stopZoneListener present zone r).thrown = none) ∧
    (∀ (z : Zone) (e : String),
        (stopZoneListener true (some z) (.error e)).logged = [e] ∧
        (stopZoneListener true (some z) (.error e)).calls =
          [SvcCall.deactivateZone z.index]) ∧
    (∀ (present : Bool) (r : Except String Unit),
        (stopIrrigationListener present r).thrown = none) ∧
    (∀ (e : String), (stopIrrigationListener true (.error e)).logged = [e]) := by
  refine ⟨?_, ?_, ?_, ?_⟩
  · intro present zone r
    cases zone <;> cases r <;> cases present <;> rfl
  · intro z e
    exact ⟨rfl, rfl⟩
  · intro present r
    cases r <;> cases present <;> rfl
  · intro e
    rfl

end Rainbird

namespace Rainbird

/-- **C7**: `formatTime 3661 = "01:01:01"`, `formatTime undefined = "-"`,
`formatTime 0 = "00:00:00"`, and in general a defined duration renders as a
fixed `HH:MM:SS` display string (two-digit hour < 24, minute < 60,
second < 60 fields joined by colons). -/
theorem C7_formatTime_spec :
    formatTime (some 3661) = "01:01:01" ∧
    formatTime none = "-" ∧
    formatTime (some 0) = "00:00:00" ∧
    ∀ s : Nat, ∃ h m sec : Nat, h < 24 ∧ m < 60 ∧ sec < 60 ∧
      formatTime (some s) = pad2 h ++ ":" ++ pad2 m ++ ":" ++ pad2 sec := by
  refine ⟨by decide, rfl, by decide, ?_⟩
  intro s
  exact ⟨s * 1000 / 3600000 % 24, s * 1000 / 60000 % 60, s * 1000 / 1000 % 60,
    Nat.mod_lt _ (by decide), Nat.mod_lt _ (by decide), Nat.mod_lt _ (by decide), rfl⟩

/-- **C10**: the formatter silently truncates whole days: for every defined
duration `s`, `formatTime s` equals the rendering of `s % 86400`; in
particular `formatTime 90061 = "01:01:01" = formatTime 3661`. -/
theorem C10_formatTime_truncates_days :
    (∀ s : Nat, formatTime (some s) = formatTime (some (s % 86400))) ∧
    formatTime (some 90061) = "01:01:01" ∧
    formatTime (some 90061) = formatTime (some 3661) := by
  refine ⟨?_, by decide, by decide⟩
  intro s
  have h1 : s * 1000 / 3600000 % 24 = s % 86400 * 1000 / 3600000 % 24 := by omega
  have h2 : s * 1000 / 60000 % 60 = s % 86400 * 1000 / 60000 % 60 := by omega
  have h3 : s * 1000 / 1000 % 60 = s % 86400 * 1000 / 1000 % 60 := by omega
  simp only [formatTime, isoTimeOfDay, h1, h2, h3]

end Rainbird
